import Mathlib

/-!
Shallow embedding of the Request Telemetry & Experiment Assignment core of
the llm_ops repository (files `config/settings.py`, `src/prompts/prompt_manager.py`,
`src/monitoring/monitor.py`).

Modelling conventions:
* Python `datetime` values are minutes since an epoch (`Nat`); one calendar day
  is 1440 minutes and `strftime(%Y-%m-%d)` becomes integer division by 1440.
* Python floats are modelled as rationals (`ℚ`); the float computations the
  claims touch (sums, divisions, `n * 0.95` for n in realistic range) are exact
  in this range, so ℚ is faithful.
* The Redis store is a record of explicit maps; a `request:{id}` key that has
  expired is `none`.  `hash(user_id)` (process-seeded but fixed within a
  process) is an arbitrary function parameter `pyHash : String → Int`; Python's
  `%` on a positive modulus agrees with `Int.emod`.
* `random.random()` draws are passed in as an explicit parameter `rand : ℚ`.
-/

namespace LlmOps

/-- Minutes per calendar day; `strftime('%Y-%m-%d')` keys become `t / 1440`. -/
def minutesPerDay : Nat := 1440

/-- The calendar-day bucket of a timestamp (minutes since epoch). -/
def dateKey (t : Nat) : Nat := t / minutesPerDay

/-! ## config/settings.py -/

/-- One entry of `MODEL_CONFIGS` (settings.py lines 104-129). -/
structure ModelConfig where
  provider : String
  max_tokens : Nat
  temperature : ℚ
  cost_per_1k_tokens : ℚ
deriving DecidableEq

/-- `MODEL_CONFIGS` from settings.py lines 104-129. -/
def MODEL_CONFIGS : List (String × ModelConfig) :=
  [ ("gpt-4",           ⟨"openai",    8192, 7/10, 3/100⟩),
    ("gpt-3.5-turbo",   ⟨"openai",    4096, 7/10, 2/1000⟩),
    ("claude-3-opus",   ⟨"anthropic", 4096, 7/10, 15/1000⟩),
    ("claude-3-sonnet", ⟨"anthropic", 4096, 7/10, 3/1000⟩) ]

/-- `get_model_config` (settings.py lines 168-170):
`MODEL_CONFIGS.get(model_name, MODEL_CONFIGS["gpt-4"])`. -/
def get_model_config (model_name : String) : ModelConfig :=
  (MODEL_CONFIGS.lookup model_name).getD ⟨"openai", 8192, 7/10, 3/100⟩

/-! ## src/prompts/prompt_manager.py -/

/-- `PromptStatus` enum (prompt_manager.py lines 26-31). -/
inductive PromptStatus where
  | DRAFT
  | ACTIVE
  | TESTING
  | DEPRECATED
deriving DecidableEq

/-- `PromptVersion` dataclass (prompt_manager.py lines 34-48). -/
structure PromptVersion where
  id : String
  template_name : String
  version : String
  template : String
  variableNames : List String
  status : PromptStatus
  created_at : Nat
  updated_at : Nat
  performance_metrics : List (String × ℚ)
  description : Option String := none
  tags : List String := []
deriving DecidableEq

/-- The A/B test configuration dict stored under `ab_test:{template_name}`
(prompt_manager.py lines 224-231). -/
structure ABTestConfig where
  template_name : String
  prompt_a : String
  prompt_b : String
  traffic_split : ℚ
  started_at : Nat
  active : Bool
deriving DecidableEq

/-- The state a `PromptManager` instance reads and writes: the `self.prompts`
dict (insertion ordered) and the `ab_test:{name}` keys in Redis. -/
structure PromptManagerState where
  prompts : List (String × PromptVersion)
  ab_tests : String → Option ABTestConfig

/-- `get_prompt` (prompt_manager.py lines 125-127): `self.prompts.get(prompt_id)`. -/
def get_prompt (st : PromptManagerState) (prompt_id : String) : Option PromptVersion :=
  st.prompts.lookup prompt_id

/-- `get_active_prompt` (prompt_manager.py lines 129-135): first prompt with the
given template name and ACTIVE status, else `None`. -/
def get_active_prompt (st : PromptManagerState) (template_name : String) :
    Option PromptVersion :=
  ((st.prompts.map Prod.snd).filter
    (fun p => decide (p.template_name = template_name ∧ p.status = PromptStatus.ACTIVE))).head?

/-- `start_ab_test` (prompt_manager.py lines 194-240).  Returns the bool result
together with the updated state.  `enabled` is `settings.ab_test_enabled`,
`now` is `datetime.now()`.  Note: the code performs no validation of
`traffic_split` whatsoever. -/
def start_ab_test (enabled : Bool) (now : Nat) (st : PromptManagerState)
    (template_name prompt_id_a prompt_id_b : String) (traffic_split : ℚ) :
    Bool × PromptManagerState :=
  if enabled = false then (false, st)
  else
    match get_prompt st prompt_id_a, get_prompt st prompt_id_b with
    | some _, some _ =>
      let prompts' := st.prompts.map (fun ip =>
        if ip.1 = prompt_id_a ∨ ip.1 = prompt_id_b then
          (ip.1, { ip.2 with status := PromptStatus.TESTING, updated_at := now })
        else ip)
      let cfg : ABTestConfig :=
        { template_name := template_name
          prompt_a := prompt_id_a
          prompt_b := prompt_id_b
          traffic_split := traffic_split
          started_at := now
          active := true }
      (true,
        { prompts := prompts'
          ab_tests := fun n => if n = template_name then some cfg else st.ab_tests n })
    | _, _ => (false, st)

/-- `get_ab_test_prompt` (prompt_manager.py lines 242-268).  `pyHash` is the
process's (fixed) `hash` on strings; `rand` is the `random.random()` draw used
only on the `user_id is None` path. -/
def get_ab_test_prompt (pyHash : String → Int) (rand : ℚ) (st : PromptManagerState)
    (template_name : String) (user_id : Option String) : Option PromptVersion :=
  match st.ab_tests template_name with
  | none => get_active_prompt st template_name
  | some cfg =>
    if cfg.active = false then get_active_prompt st template_name
    else
      let use_version_b : Bool :=
        match user_id with
        | some uid =>
          decide ((((pyHash uid) % 100 : Int) : ℚ) < cfg.traffic_split * 100)
        | none => decide (rand < cfg.traffic_split)
      let prompt_id := if use_version_b then cfg.prompt_b else cfg.prompt_a
      get_prompt st prompt_id

/-! ## src/monitoring/monitor.py -/

/-- `LLMRequest` dataclass (monitor.py lines 27-42). -/
structure LLMRequest where
  request_id : String
  model_name : String
  model_version : String
  prompt_id : Option String
  user_id : Option String
  timestamp : Nat
  input_tokens : Nat
  output_tokens : Nat
  latency_ms : ℚ
  cost_usd : ℚ
  success : Bool
  error_message : Option String := none
  metadata : List (String × String) := []
deriving DecidableEq

/-- `CostMetrics` dataclass (monitor.py lines 45-54). -/
structure CostMetrics where
  total_cost_usd : ℚ
  cost_per_request : ℚ
  cost_per_token : ℚ
  requests_count : Nat
  tokens_count : Nat
  period_start : Nat
  period_end : Nat
deriving DecidableEq

/-- The slice of Redis the monitor reads and writes: `request:{id}` keys
(`none` once expired), the per-day `requests:{date}` lists and the per-day
`model_requests:{model}:{date}` lists (`lpush` prepends), plus an availability
flag modelling whether the Redis connection raises. -/
structure MonitorStore where
  requests : String → Option LLMRequest
  requestsByDay : Nat → List String
  modelRequestsByDay : String → Nat → List String
  available : Bool

/-- Failure of the underlying key-value store (a `redis` connection error). -/
inductive StoreError where
  | unavailable
deriving DecidableEq

/-- `calculate_cost` (monitor.py lines 98-111): rate lookup with default entry,
then `(input_tokens + output_tokens) / 1000 * cost_per_1k_tokens`. -/
def calculate_cost (model_name : String) (input_tokens output_tokens : Nat) : ℚ :=
  let cost_per_1k := (get_model_config model_name).cost_per_1k_tokens
  let total_tokens := input_tokens + output_tokens
  ((total_tokens : ℚ) / 1000) * cost_per_1k

/-- The body of the `try` block of `_save_request` (monitor.py lines 176-193):
`setex` on `request:{id}`, `lpush`/`expire` on the day list and the model/day
list.  Every Redis call raises when the store is unavailable. -/
def save_request_attempt (s : MonitorStore) (r : LLMRequest) :
    Except StoreError MonitorStore :=
  if s.available = false then Except.error StoreError.unavailable
  else
    let d := dateKey r.timestamp
    Except.ok
      { s with
        requests := fun id => if id = r.request_id then some r else s.requests id
        requestsByDay := fun dk =>
          if dk = d then r.request_id :: s.requestsByDay dk else s.requestsByDay dk
        modelRequestsByDay := fun m dk =>
          if m = r.model_name ∧ dk = d then r.request_id :: s.modelRequestsByDay m dk
          else s.modelRequestsByDay m dk }

/-- `_save_request` (monitor.py lines 174-196): the whole body is wrapped in
`try/except Exception`, whose handler only logs — so no store failure ever
escapes to the caller; the result type `Except` records whether an exception
propagates. -/
def save_request (s : MonitorStore) (r : LLMRequest) : Except StoreError MonitorStore :=
  match save_request_attempt s r with
  | Except.ok s' => Except.ok s'
  | Except.error _ => Except.ok s

/-- The dates visited by the `while current_date <= end_date` /
`current_date += timedelta(days=1)` loops (monitor.py lines 252-269, 292-311,
365-381): the day keys of `start`, `start + 1440`, ... while `≤ end_`. -/
def collectDayKeysFuel : Nat → Nat → Nat → List Nat
  | 0, _, _ => []
  | fuel + 1, current, end_ =>
    if current ≤ end_ then
      dateKey current :: collectDayKeysFuel fuel (current + minutesPerDay) end_
    else []

/-- `collectDayKeys current end_` runs the loop itself; `end_ + 1` steps of fuel
always suffice because each iteration advances `current` by a whole day. -/
def collectDayKeys (current end_ : Nat) : List Nat :=
  collectDayKeysFuel (end_ + 1) current end_

/-- The `requests:{date}` or `model_requests:{model}:{date}` list for one day
(monitor.py lines 254-259 and 295-300). -/
def dayBucket (s : MonitorStore) (model_name : Option String) (d : Nat) : List String :=
  match model_name with
  | some m => s.modelRequestsByDay m d
  | none => s.requestsByDay d

/-- The records `get_cost_metrics` accumulates over (monitor.py lines 252-269):
every id of every visited day bucket whose `request:{id}` key still exists —
with no condition on the record's own timestamp. -/
def scannedRecords (s : MonitorStore) (model_name : Option String)
    (start_date end_date : Nat) : List LLMRequest :=
  (collectDayKeys start_date end_date).flatMap
    (fun d => (dayBucket s model_name d).filterMap s.requests)

/-- `get_cost_metrics` (monitor.py lines 235-279) with the window passed
explicitly (the `datetime.now()` defaults are supplied by the callers). -/
def get_cost_metrics (s : MonitorStore) (model_name : Option String)
    (start_date end_date : Nat) : CostMetrics :=
  let recs := scannedRecords s model_name start_date end_date
  let total_cost := (recs.map (fun r => r.cost_usd)).sum
  let total_requests := recs.length
  let total_tokens : Nat := (recs.map (fun r => r.input_tokens + r.output_tokens)).sum
  { total_cost_usd := total_cost
    cost_per_request := if total_requests > 0 then total_cost / (total_requests : ℚ) else 0
    cost_per_token := if total_tokens > 0 then total_cost / (total_tokens : ℚ) else 0
    requests_count := total_requests
    tokens_count := total_tokens
    period_start := start_date
    period_end := end_date }

/-- The dict returned by `get_performance_metrics` (monitor.py lines 313-333);
the `min/max/p95` keys are absent (`none`) on the empty-window early return. -/
structure PerfMetrics where
  avg_latency_ms : ℚ
  success_rate : ℚ
  requests_per_hour : ℚ
  total_requests : Nat
  min_latency_ms : Option ℚ := none
  max_latency_ms : Option ℚ := none
  p95_latency_ms : Option ℚ := none
deriving DecidableEq

/-- The records `get_performance_metrics` keeps (monitor.py lines 292-311):
ids of visited day buckets whose record exists AND whose own timestamp lies in
`[start_time, end_time]`. -/
def perfWindowRecords (s : MonitorStore) (model_name : Option String)
    (start_time end_time : Nat) : List LLMRequest :=
  (collectDayKeys start_time end_time).flatMap
    (fun d => (dayBucket s model_name d).filterMap
      (fun id => (s.requests id).filter
        (fun r => decide (start_time ≤ r.timestamp ∧ r.timestamp ≤ end_time))))

/-- `get_performance_metrics` (monitor.py lines 281-333); `now` is
`datetime.now()`, the window is the trailing `hours` hours. -/
def get_performance_metrics (s : MonitorStore) (model_name : Option String)
    (now : Nat) (hours : Nat) : PerfMetrics :=
  let end_time := now
  let start_time := now - hours * 60
  let requests := perfWindowRecords s model_name start_time end_time
  if requests = [] then
    { avg_latency_ms := 0, success_rate := 0, requests_per_hour := 0, total_requests := 0 }
  else
    let latencies := requests.map (fun r => r.latency_ms)
    let successCount := requests.countP (fun r => r.success)
    let sorted := latencies.insertionSort (fun a b => a ≤ b)
    { avg_latency_ms := latencies.sum / (latencies.length : ℚ)
      success_rate := (successCount : ℚ) / (requests.length : ℚ)
      requests_per_hour := (requests.length : ℚ) / (hours : ℚ)
      total_requests := requests.length
      min_latency_ms := latencies.min?
      max_latency_ms := latencies.max?
      p95_latency_ms := sorted[latencies.length * 95 / 100]? }

/-- The dict returned by `get_error_summary` (monitor.py lines 388-392).
`error_types` maps an error message (possibly `None`) to its count. -/
structure ErrorSummary where
  total_errors : Nat
  error_types : Option String → Nat
  error_rate : ℚ

/-- The error records `get_error_summary` collects (monitor.py lines 365-381):
window-filtered records of the global day buckets whose `success` is false. -/
def windowErrors (s : MonitorStore) (now : Nat) (hours : Nat) : List LLMRequest :=
  let end_time := now
  let start_time := now - hours * 60
  (collectDayKeys start_time end_time).flatMap
    (fun d => (s.requestsByDay d).filterMap
      (fun id => (s.requests id).filter
        (fun r => decide (start_time ≤ r.timestamp ∧ r.timestamp ≤ end_time
                           ∧ r.success = false))))

/-- `get_error_summary` (monitor.py lines 355-392).  The `error_types` dict is
built by counting messages; the rate is `len(errors) / max(1, len(errors) + 100)`. -/
def get_error_summary (s : MonitorStore) (now : Nat) (hours : Nat) : ErrorSummary :=
  let errors := windowErrors s now hours
  { total_errors := errors.length
    error_types := fun msg => errors.countP (fun e => e.error_message = msg)
    error_rate := (errors.length : ℚ) / ((max 1 (errors.length + 100) : Nat) : ℚ) }

/-- One alert dict emitted by `check_cost_alerts` (monitor.py lines 346-351). -/
structure Alert where
  type : String
  message : String
  severity : String
  timestamp : Nat
deriving DecidableEq

/-- The alert message f-string of monitor.py line 348 (float formatting
abstracted to `toString` of the exact rational). -/
def costAlertMessage (cost threshold : ℚ) : String :=
  "Tägliche Kosten (" ++ toString cost ++ " USD) über Schwellenwert ("
    ++ toString threshold ++ " USD)"

/-- `check_cost_alerts` (monitor.py lines 335-353); `threshold` is
`settings.cost_alert_threshold`, the window is the trailing day ending at `now`. -/
def check_cost_alerts (s : MonitorStore) (now : Nat) (threshold : ℚ) : List Alert :=
  let daily_metrics := get_cost_metrics s none (now - minutesPerDay) now
  if daily_metrics.total_cost_usd > threshold then
    [ { type := "cost_alert"
        message := costAlertMessage daily_metrics.total_cost_usd threshold
        severity := "high"
        timestamp := now } ]
  else []

/-! ## Concrete fixtures used by witnesses and counterexamples -/

/-- A prompt version fixture. -/
def pv (id template : String) : PromptVersion :=
  { id := id, template_name := "chatbot", version := "v1", template := template,
    variableNames := [], status := PromptStatus.DRAFT, created_at := 0, updated_at := 0,
    performance_metrics := [] }

/-- A/B configuration fixture with the given split. -/
def cfgSplit (split : ℚ) : ABTestConfig :=
  { template_name := "chatbot", prompt_a := "pa", prompt_b := "pb",
    traffic_split := split, started_at := 10, active := true }

/-- Manager state holding prompts `pa`, `pb` and an active test with the given split. -/
def mgrSplit (split : ℚ) : PromptManagerState :=
  { prompts := [("pa", pv "pa" "A"), ("pb", pv "pb" "B")]
    ab_tests := fun n => if n = "chatbot" then some (cfgSplit split) else none }

/-- Manager state holding prompts `pa`, `pb` and no A/B test configuration. -/
def mgr0 : PromptManagerState :=
  { prompts := [("pa", pv "pa" "A"), ("pb", pv "pb" "B")]
    ab_tests := fun _ => none }

/-- A request fixture. -/
def wreq (id : String) (ts : Nat) (lat cost : ℚ) (ok : Bool) : LLMRequest :=
  { request_id := id, model_name := "gpt-4", model_version := "1", prompt_id := none,
    user_id := none, timestamp := ts, input_tokens := 10, output_tokens := 5,
    latency_ms := lat, cost_usd := cost, success := ok }

/-- An unavailable store holding nothing. -/
def badStore : MonitorStore :=
  { requests := fun _ => none, requestsByDay := fun _ => [],
    modelRequestsByDay := fun _ _ => [], available := false }

/-! ## Claims -/

/-- Claim C1 (sticky assignment): for an unchanged manager state — hence an
unchanged active A/B configuration — and the process's fixed string hash,
`get_ab_test_prompt` returns the same variant on every call with a given
`user_id`: the per-call random draw (the only per-call varying input) is
consulted only when `user_id` is absent, so the result is identical for any
two draws. -/
theorem sticky_assignment (pyHash : String → Int) (r₁ r₂ : ℚ)
    (st : PromptManagerState) (name uid : String) :
    get_ab_test_prompt pyHash r₁ st name (some uid)
      = get_ab_test_prompt pyHash r₂ st name (some uid) := rfl

/-- Claim C2 (boundary splits): under an active assignment with
`traffic_split = 0` the assignment resolves prompt A for every `user_id`
(including the random path, whose draw lies in `[0,1)`), and with
`traffic_split = 1` it resolves prompt B — the comparison `hash < split*100`
is inclusive on B's side. -/
theorem ab_test_boundary_splits (pyHash : String → Int) (rand : ℚ)
    (st : PromptManagerState) (name : String) (user_id : Option String)
    (cfg : ABTestConfig)
    (hcfg : st.ab_tests name = some cfg) (hact : cfg.active = true)
    (hr0 : 0 ≤ rand) (hr1 : rand < 1) :
    (cfg.traffic_split = 0 →
       get_ab_test_prompt pyHash rand st name user_id = get_prompt st cfg.prompt_a)
  ∧ (cfg.traffic_split = 1 →
       get_ab_test_prompt pyHash rand st name user_id = get_prompt st cfg.prompt_b) := by
  unfold get_ab_test_prompt
  rw [hcfg]
  simp only [hact]
  constructor
  · intro h0
    cases user_id with
    | none => simp [h0, not_lt.2 hr0]
    | some uid =>
      have hnn : (0 : ℚ) ≤ ((pyHash uid % 100 : Int) : ℚ) :=
        Int.cast_nonneg.2 (Int.emod_nonneg _ (by norm_num))
      simp [h0, not_lt.2 hnn]
  · intro h1
    cases user_id with
    | none => simp [h1, hr1]
    | some uid =>
      have hlt : ((pyHash uid % 100 : Int) : ℚ) < 100 := by
        exact_mod_cast Int.emod_lt_of_pos (pyHash uid) (by norm_num : (0 : Int) < 100)
      simp [h1, hlt]

/-- Witness for C2: with hash `-7` (so `-7 % 100 = 93`) and draw `1/2`,
split 0 resolves prompt `pa` and split 1 resolves prompt `pb`. -/
theorem ab_test_boundary_splits_witness :
    get_ab_test_prompt (fun _ => -7) (1/2) (mgrSplit 0) "chatbot" (some "alice")
      = get_prompt (mgrSplit 0) "pa"
  ∧ get_ab_test_prompt (fun _ => -7) (1/2) (mgrSplit 1) "chatbot" (some "alice")
      = get_prompt (mgrSplit 1) "pb" :=
  ⟨(ab_test_boundary_splits _ _ _ _ _ (cfgSplit 0) rfl rfl (by norm_num) (by norm_num)).1 rfl,
   (ab_test_boundary_splits _ _ _ _ _ (cfgSplit 1) rfl rfl (by norm_num) (by norm_num)).2 rfl⟩

/-- Counterexample to C3 as stated: `start_ab_test` does not validate the
traffic split.  With both prompts present and `traffic_split = 2` (outside
`[0,1]`) it succeeds and stores the assignment instead of failing. -/
theorem start_ab_test_accepts_oob_split :
    (start_ab_test true 500 mgr0 "chatbot" "pa" "pb" 2).1 = true
  ∧ (start_ab_test true 500 mgr0 "chatbot" "pa" "pb" 2).2.ab_tests "chatbot"
      = some { template_name := "chatbot", prompt_a := "pa", prompt_b := "pb",
               traffic_split := 2, started_at := 500, active := true } :=
  ⟨rfl, rfl⟩

/-- Claim C3 amended: `start_ab_test` returns `False` with the state unchanged
(no assignment stored) when A/B testing is disabled or when either prompt id is
not a stored prompt — in particular an empty id, which is never a generated
prompt id.  There is no `InvalidArgument` error and no range check on the
split: with both prompts found and testing enabled, any `traffic_split`
(including values outside `[0,1]`) is accepted and the assignment is stored
with exactly that split. -/
theorem start_ab_test_amended (enabled : Bool) (now : Nat) (st : PromptManagerState)
    (name a b : String) (split : ℚ) :
    (enabled = false → start_ab_test enabled now st name a b split = (false, st))
  ∧ (get_prompt st a = none ∨ get_prompt st b = none →
       start_ab_test enabled now st name a b split = (false, st))
  ∧ (enabled = true → (get_prompt st a).isSome → (get_prompt st b).isSome →
       (start_ab_test enabled now st name a b split).1 = true
       ∧ ∃ cfg : ABTestConfig,
           (start_ab_test enabled now st name a b split).2.ab_tests name = some cfg
           ∧ cfg.traffic_split = split ∧ cfg.active = true) := by
  refine ⟨fun he => by simp [start_ab_test, he], ?_, ?_⟩
  · intro hmiss
    unfold start_ab_test
    cases enabled
    · simp
    · rcases hga : get_prompt st a with _ | prA <;>
        rcases hgb : get_prompt st b with _ | prB <;> simp_all
  · intro he ha hb
    rcases Option.isSome_iff_exists.1 ha with ⟨prA, hA⟩
    rcases Option.isSome_iff_exists.1 hb with ⟨prB, hB⟩
    unfold start_ab_test
    simp only [he, hA, hB]
    exact ⟨by simp,
      ⟨{ template_name := name, prompt_a := a, prompt_b := b, traffic_split := split,
         started_at := now, active := true }, by simp, rfl, rfl⟩⟩

/-- Witness for C3's amended claim, all three branches: disabled testing,
an unknown (empty) prompt id, and an out-of-range split of `3/2` that is
accepted and stored. -/
theorem start_ab_test_amended_witness :
    start_ab_test false 500 mgr0 "chatbot" "pa" "pb" (1/2) = (false, mgr0)
  ∧ start_ab_test true 500 mgr0 "chatbot" "" "pb" (1/2) = (false, mgr0)
  ∧ ((start_ab_test true 500 mgr0 "chatbot" "pa" "pb" (3/2)).1 = true
     ∧ ∃ cfg : ABTestConfig,
         (start_ab_test true 500 mgr0 "chatbot" "pa" "pb" (3/2)).2.ab_tests "chatbot"
           = some cfg
         ∧ cfg.traffic_split = 3/2 ∧ cfg.active = true) :=
  ⟨(start_ab_test_amended false 500 mgr0 "chatbot" "pa" "pb" (1/2)).1 rfl,
   (start_ab_test_amended true 500 mgr0 "chatbot" "" "pb" (1/2)).2.1 (Or.inl rfl),
   (start_ab_test_amended true 500 mgr0 "chatbot" "pa" "pb" (3/2)).2.2 rfl rfl rfl⟩

/-- Counterexample to C4 as stated: on an unavailable store the underlying
Redis calls fail, yet `_save_request` returns normally — the failure is not
propagated to the caller. -/
theorem save_request_swallows_unavailability :
    save_request_attempt badStore (wreq "x" 900 100 (1/100) true)
      = Except.error StoreError.unavailable
  ∧ save_request badStore (wreq "x" 900 100 (1/100) true) = Except.ok badStore :=
  ⟨rfl, rfl⟩

/-- Claim C4 amended: ingestion indeed never fails, but not by propagating
`StorageUnavailable`: `_save_request` wraps every store call in
`try/except Exception` whose handler only logs, so every call returns
normally; on an unavailable store the error is swallowed and the caller
observes a normal return with the store unchanged. -/
theorem save_request_amended (s : MonitorStore) (r : LLMRequest) :
    (∃ s', save_request s r = Except.ok s')
  ∧ (s.available = false → save_request s r = Except.ok s) := by
  constructor
  · unfold save_request save_request_attempt
    by_cases h : s.available = false
    · rw [if_pos h]; exact ⟨s, rfl⟩
    · rw [if_neg h]; exact ⟨_, rfl⟩
  · intro h
    unfold save_request save_request_attempt
    rw [if_pos h]

/-- Witness for C4's amended claim at the unavailable store. -/
theorem save_request_amended_witness :
    badStore.available = false
  ∧ save_request badStore (wreq "y" 900 100 (1/100) true) = Except.ok badStore :=
  ⟨rfl, (save_request_amended badStore (wreq "y" 900 100 (1/100) true)).2 rfl⟩

/-- Twenty requests on day 0 with latencies 100, 200, ..., 2000. -/
def reqs20 : List LLMRequest :=
  [ wreq "a01" 900 100 1 true, wreq "a02" 900 200 1 true, wreq "a03" 900 300 1 true,
    wreq "a04" 900 400 1 true, wreq "a05" 900 500 1 true, wreq "a06" 900 600 1 true,
    wreq "a07" 900 700 1 true, wreq "a08" 900 800 1 true, wreq "a09" 900 900 1 true,
    wreq "a10" 900 1000 1 true, wreq "a11" 900 1100 1 true, wreq "a12" 900 1200 1 true,
    wreq "a13" 900 1300 1 true, wreq "a14" 900 1400 1 true, wreq "a15" 900 1500 1 true,
    wreq "a16" 900 1600 1 true, wreq "a17" 900 1700 1 true, wreq "a18" 900 1800 1 true,
    wreq "a19" 900 1900 1 true, wreq "a20" 900 2000 1 true ]

/-- Store holding exactly the twenty requests of `reqs20` in day bucket 0. -/
def store20 : MonitorStore :=
  { requests := fun id => (reqs20.map (fun r => (r.request_id, r))).lookup id
    requestsByDay := fun d => if d = 0 then reqs20.map (fun r => r.request_id) else []
    modelRequestsByDay := fun _ _ => []
    available := true }

/-- An available store holding nothing. -/
def emptyStore : MonitorStore :=
  { requests := fun _ => none, requestsByDay := fun _ => [],
    modelRequestsByDay := fun _ _ => [], available := true }

/-- Floor arithmetic behind `int(len(latencies) * 0.95)`: on the naturals in
range, the float expression computes exactly `⌊n * 95/100⌋ = n * 95 / 100`. -/
theorem floor_mul_95 (n : Nat) : ⌊(n : ℚ) * (95 / 100)⌋₊ = n * 95 / 100 := by
  have h : (n : ℚ) * (95 / 100) = ((n * 95 : ℕ) : ℚ) / ((100 : ℕ) : ℚ) := by
    push_cast; ring
  rw [h, Nat.floor_div_nat, Nat.floor_natCast]

/-- Claim C5: on every non-empty window, `p95_latency_ms` is the element at
0-indexed position `⌊0.95 * n⌋` of the ascending-sorted latency list
(nearest rank, no interpolation). -/
theorem p95_nearest_rank (s : MonitorStore) (m : Option String) (now hours : Nat)
    (recs : List LLMRequest) (lats sorted : List ℚ)
    (hrecs : recs = perfWindowRecords s m (now - hours * 60) now)
    (hlats : lats = recs.map (fun r => r.latency_ms))
    (hsorted : sorted = lats.insertionSort (fun a b => a ≤ b))
    (hne : recs ≠ []) :
    (get_performance_metrics s m now hours).p95_latency_ms
      = some (sorted.getD (⌊(lats.length : ℚ) * (95 / 100)⌋₊) 0) := by
  subst hsorted hlats hrecs
  have hpos : 0 < (perfWindowRecords s m (now - hours * 60) now).length :=
    List.length_pos.2 hne
  have hidx :
      ((perfWindowRecords s m (now - hours * 60) now).map (fun r => r.latency_ms)).length
          * 95 / 100
        < (((perfWindowRecords s m (now - hours * 60) now).map
              (fun r => r.latency_ms)).insertionSort (fun a b => a ≤ b)).length := by
    simp only [List.length_insertionSort, List.length_map]
    omega
  simp only [get_performance_metrics, hne, if_neg, reduceIte]
  rw [floor_mul_95, List.getElem?_eq_getElem hidx, List.getD_eq_getElem _ 0 hidx]

/-- Witness for C5: on the twenty latencies 100, 200, ..., 2000 the p95 is the
ascending-sorted element at index `⌊0.95 * 20⌋ = 19`, the maximum 2000. -/
theorem p95_nearest_rank_witness :
    perfWindowRecords store20 none (1500 - 24 * 60) 1500 ≠ []
  ∧ (get_performance_metrics store20 none 1500 24).p95_latency_ms = some 2000 := by
  have hne : perfWindowRecords store20 none (1500 - 24 * 60) 1500 ≠ [] := by
    simp [perfWindowRecords, collectDayKeys, collectDayKeysFuel, dateKey, minutesPerDay,
      dayBucket, store20, reqs20, wreq, List.lookup, List.filterMap_cons, Option.filter]
  refine ⟨hne, ?_⟩
  rw [p95_nearest_rank store20 none 1500 24 _ _ _ rfl rfl rfl hne, floor_mul_95]
  simp [perfWindowRecords, collectDayKeys, collectDayKeysFuel, dateKey, minutesPerDay,
    dayBucket, store20, reqs20, wreq, List.lookup, List.filterMap_cons, Option.filter]
  norm_num [List.insertionSort, List.orderedInsert]

/-- Claim C6: `error_summary`'s `error_rate` is exactly
`total_errors / (total_errors + 100)` where `total_errors` counts the
in-window records whose `success` is false (the `max(1, ...)` guard in the
source is inert since the denominator is at least 100). -/
theorem error_rate_formula (s : MonitorStore) (now hours : Nat) :
    (get_error_summary s now hours).total_errors = (windowErrors s now hours).length
  ∧ (get_error_summary s now hours).error_rate
      = ((get_error_summary s now hours).total_errors : ℚ)
        / (((get_error_summary s now hours).total_errors : ℚ) + 100) := by
  refine ⟨rfl, ?_⟩
  have h : max 1 ((windowErrors s now hours).length + 100)
      = (windowErrors s now hours).length + 100 := by omega
  simp only [get_error_summary]
  rw [h]
  push_cast
  ring

/-- Claim C7: aggregation is total on empty input — an empty window yields
all-zero cost and performance aggregates, and each derived rate is 0 whenever
its denominator is 0, with no division fault. -/
theorem empty_window_aggregates (s : MonitorStore) (m : Option String)
    (start_date end_date now hours : Nat)
    (hc : scannedRecords s m start_date end_date = [])
    (hp : perfWindowRecords s m (now - hours * 60) now = []) :
    get_cost_metrics s m start_date end_date
        = { total_cost_usd := 0, cost_per_request := 0, cost_per_token := 0,
            requests_count := 0, tokens_count := 0,
            period_start := start_date, period_end := end_date }
  ∧ get_performance_metrics s m now hours
        = { avg_latency_ms := 0, success_rate := 0, requests_per_hour := 0,
            total_requests := 0 }
  ∧ (∀ (s' : MonitorStore) (m' : Option String) (a b : Nat),
        (get_cost_metrics s' m' a b).requests_count = 0 →
        (get_cost_metrics s' m' a b).cost_per_request = 0)
  ∧ (∀ (s' : MonitorStore) (m' : Option String) (a b : Nat),
        (get_cost_metrics s' m' a b).tokens_count = 0 →
        (get_cost_metrics s' m' a b).cost_per_token = 0) := by
  refine ⟨by simp [get_cost_metrics, hc], by simp [get_performance_metrics, hp], ?_, ?_⟩
  · intro s' m' a b h
    simp only [get_cost_metrics] at h ⊢
    simp [h]
  · intro s' m' a b h
    simp only [get_cost_metrics] at h ⊢
    simp [h]

/-- Witness for C7 at a store holding nothing, window `[60, 1500]`. -/
theorem empty_window_aggregates_witness :
    scannedRecords emptyStore none 60 1500 = []
  ∧ get_cost_metrics emptyStore none 60 1500
      = { total_cost_usd := 0, cost_per_request := 0, cost_per_token := 0,
          requests_count := 0, tokens_count := 0, period_start := 60, period_end := 1500 }
  ∧ get_performance_metrics emptyStore none 1500 24
      = { avg_latency_ms := 0, success_rate := 0, requests_per_hour := 0,
          total_requests := 0 }
  ∧ (get_cost_metrics emptyStore none 60 1500).cost_per_request = 0
  ∧ (get_cost_metrics emptyStore none 60 1500).cost_per_token = 0 :=
  ⟨rfl,
   (empty_window_aggregates emptyStore none 60 1500 1500 24 rfl rfl).1,
   (empty_window_aggregates emptyStore none 60 1500 1500 24 rfl rfl).2.1,
   (empty_window_aggregates emptyStore none 60 1500 1500 24 rfl rfl).2.2.1
     emptyStore none 60 1500 rfl,
   (empty_window_aggregates emptyStore none 60 1500 1500 24 rfl rfl).2.2.2
     emptyStore none 60 1500 rfl⟩

/-- Store with one request of cost 200 on day 1 (total 200 over `[1440, 2880]`). -/
def alertStore : MonitorStore :=
  { requests := fun id => if id = "a" then some (wreq "a" 1500 100 200 true) else none
    requestsByDay := fun d => if d = 1 then ["a"] else []
    modelRequestsByDay := fun _ _ => [], available := true }

/-- Store with one request of cost exactly 100 on day 1. -/
def boundaryStore : MonitorStore :=
  { requests := fun id => if id = "b" then some (wreq "b" 1500 100 100 true) else none
    requestsByDay := fun d => if d = 1 then ["b"] else []
    modelRequestsByDay := fun _ _ => [], available := true }

/-- Claim C8: `check_cost_alerts` emits exactly one alert — type `cost_alert`,
severity `high` — when the trailing-day total cost is strictly greater than
the threshold, and none otherwise; equality with the threshold does not alert. -/
theorem cost_alert_threshold_strict (s : MonitorStore) (now : Nat) (threshold : ℚ) :
    ((get_cost_metrics s none (now - minutesPerDay) now).total_cost_usd > threshold →
       check_cost_alerts s now threshold
         = [{ type := "cost_alert"
              message := costAlertMessage
                (get_cost_metrics s none (now - minutesPerDay) now).total_cost_usd threshold
              severity := "high", timestamp := now }])
  ∧ ((get_cost_metrics s none (now - minutesPerDay) now).total_cost_usd ≤ threshold →
       check_cost_alerts s now threshold = []) := by
  constructor
  · intro h
    simp [check_cost_alerts, h]
  · intro h
    simp [check_cost_alerts, not_lt.2 h]

/-- Witness for C8: total 200 against threshold 100 yields the single alert;
total exactly 100 against threshold 100 yields none. -/
theorem cost_alert_threshold_strict_witness :
    (get_cost_metrics alertStore none (2880 - minutesPerDay) 2880).total_cost_usd > 100
  ∧ check_cost_alerts alertStore 2880 100
      = [{ type := "cost_alert"
           message := costAlertMessage
             (get_cost_metrics alertStore none (2880 - minutesPerDay) 2880).total_cost_usd 100
           severity := "high", timestamp := 2880 }]
  ∧ (get_cost_metrics boundaryStore none (2880 - minutesPerDay) 2880).total_cost_usd ≤ 100
  ∧ check_cost_alerts boundaryStore 2880 100 = [] := by
  have h1 : (get_cost_metrics alertStore none (2880 - minutesPerDay) 2880).total_cost_usd
      = 200 := by
    simp [get_cost_metrics, scannedRecords, collectDayKeys, collectDayKeysFuel, dateKey,
      minutesPerDay, dayBucket, alertStore, wreq, List.filterMap_cons]
  have h2 : (get_cost_metrics boundaryStore none (2880 - minutesPerDay) 2880).total_cost_usd
      = 100 := by
    simp [get_cost_metrics, scannedRecords, collectDayKeys, collectDayKeysFuel, dateKey,
      minutesPerDay, dayBucket, boundaryStore, wreq, List.filterMap_cons]
  exact ⟨by rw [h1]; norm_num,
    (cost_alert_threshold_strict alertStore 2880 100).1 (by rw [h1]; norm_num),
    by rw [h2],
    (cost_alert_threshold_strict boundaryStore 2880 100).2 (by rw [h2])⟩

/-- Claim C9: `calculate_cost` is total and returns
`(input_tokens + output_tokens)/1000 * cost_per_1k_tokens` under the rate
table with default fallback; with 1000 input tokens and 0 output tokens it
returns the configured per-1k rate exactly, and unknown model names get the
default (`gpt-4`) entry. -/
theorem calculate_cost_spec :
    (∀ (name : String) (i o : Nat),
       calculate_cost name i o
         = (((i + o : Nat) : ℚ) / 1000) * (get_model_config name).cost_per_1k_tokens)
  ∧ (∀ name : String,
       calculate_cost name 1000 0 = (get_model_config name).cost_per_1k_tokens)
  ∧ (∀ name : String, MODEL_CONFIGS.lookup name = none →
       get_model_config name
         = { provider := "openai", max_tokens := 8192, temperature := 7/10,
             cost_per_1k_tokens := 3/100 }) := by
  refine ⟨fun name i o => rfl, fun name => ?_, fun name h => ?_⟩
  · unfold calculate_cost
    norm_num
  · unfold get_model_config
    rw [h]
    rfl

/-- Witness for C9: an unknown model name falls back to the default entry and
`calculate_cost "gpt-4" 1000 0` is exactly the configured 0.03. -/
theorem calculate_cost_spec_witness :
    MODEL_CONFIGS.lookup "mystery-model" = none
  ∧ get_model_config "mystery-model"
      = { provider := "openai", max_tokens := 8192, temperature := 7/10,
          cost_per_1k_tokens := 3/100 }
  ∧ calculate_cost "gpt-4" 1000 0 = 3/100 :=
  ⟨rfl, calculate_cost_spec.2.2 "mystery-model" rfl,
   by rw [calculate_cost_spec.2.1 "gpt-4"]; rfl⟩

/-- The same store with every stored record's timestamp rewritten through `g`
(the day indices and id lists untouched). -/
def retimeRecords (g : LLMRequest → Nat) (s : MonitorStore) : MonitorStore :=
  { s with requests := fun id => (s.requests id).map (fun r => { r with timestamp := g r }) }

/-- Store with one request stored in day bucket 1 whose own timestamp (1500)
lies before the window `[2160, 2880]`. -/
def outsideStore : MonitorStore :=
  { requests := fun id => if id = "o" then some (wreq "o" 1500 100 1 true) else none
    requestsByDay := fun d => if d = 1 then ["o"] else []
    modelRequestsByDay := fun _ _ => [], available := true }

/-- Claim C10: `get_cost_metrics` aggregates at whole-calendar-day
granularity and never consults a record's own timestamp: its result is
invariant under arbitrarily rewriting stored timestamps, every unexpired
record of a visited day bucket is scanned, and a record timestamped outside
the requested instants but inside a covered day is counted by
`get_cost_metrics` yet excluded by the timestamp-filtering
`get_performance_metrics` over the same window `[2160, 2880]`. -/
theorem cost_metrics_day_granularity :
    (∀ (g : LLMRequest → Nat) (s : MonitorStore) (m : Option String) (a b : Nat),
       get_cost_metrics (retimeRecords g s) m a b = get_cost_metrics s m a b)
  ∧ (∀ (s : MonitorStore) (m : Option String) (a b d : Nat) (id : String)
       (r : LLMRequest),
       d ∈ collectDayKeys a b → id ∈ dayBucket s m d → s.requests id = some r →
       r ∈ scannedRecords s m a b)
  ∧ (∃ r, outsideStore.requests "o" = some r ∧ r.timestamp < 2160
       ∧ (get_cost_metrics outsideStore none 2160 2880).requests_count = 1
       ∧ (get_performance_metrics outsideStore none 2880 12).total_requests = 0) := by
  refine ⟨?_, ?_, ?_⟩
  · intro g s m a b
    have hfm : ∀ (f : String → Option LLMRequest) (l : List String),
        l.filterMap (fun id => (f id).map (fun r => { r with timestamp := g r }))
          = (l.filterMap f).map (fun r => { r with timestamp := g r }) := by
      intro f l
      induction l with
      | nil => rfl
      | cons x xs ih => cases h : f x <;> simp [List.filterMap_cons, h, ih]
    have hsc : scannedRecords (retimeRecords g s) m a b
        = (scannedRecords s m a b).map (fun r => { r with timestamp := g r }) := by
      unfold scannedRecords retimeRecords
      have hday : ∀ d, dayBucket { s with
          requests := fun id => (s.requests id).map (fun r => { r with timestamp := g r }) }
            m d = dayBucket s m d := by
        intro d; cases m <;> rfl
      simp only [hday, hfm, List.map_flatMap]
    have hcost : ((fun r => r.cost_usd) ∘ (fun r : LLMRequest => { r with timestamp := g r }))
        = (fun r : LLMRequest => r.cost_usd) := rfl
    have htok : ((fun r => r.input_tokens + r.output_tokens)
          ∘ (fun r : LLMRequest => { r with timestamp := g r }))
        = (fun r : LLMRequest => r.input_tokens + r.output_tokens) := rfl
    unfold get_cost_metrics
    rw [hsc]
    simp only [List.map_map, List.length_map, hcost, htok]
  · intro s m a b d id r hd hid hr
    unfold scannedRecords
    exact List.mem_flatMap.2 ⟨d, hd, List.mem_filterMap.2 ⟨id, hid, hr⟩⟩
  · exact ⟨wreq "o" 1500 100 1 true, rfl, by decide, rfl, rfl⟩

/-- Witness for C10's bucket-membership component at the concrete store. -/
theorem cost_metrics_day_granularity_witness :
    (1 : Nat) ∈ collectDayKeys 2160 2880
  ∧ "o" ∈ dayBucket outsideStore none 1
  ∧ outsideStore.requests "o" = some (wreq "o" 1500 100 1 true)
  ∧ wreq "o" 1500 100 1 true ∈ scannedRecords outsideStore none 2160 2880 :=
  ⟨by decide, by decide, rfl,
   cost_metrics_day_granularity.2.1 outsideStore none 2160 2880 1 "o" _
     (by decide) (by decide) rfl⟩

end LlmOps
